import Mathlib

/-
Shallow embedding of two FastAPI services from the repository:
  src/1.py — a medical question-answering service (endpoint /answer, BioBERT pipeline)
  src/2.py — a clinical text summarization service (endpoint /summarize, T5 pipeline)

Modelling choices, all read off the source:
  - Python exceptions are the inductive PyExc: either a fastapi HTTPException
    carrying a status code and a detail string, or any other exception carrying
    its message (TypeError, pipeline failures, IndexError).
  - The pinned dependency stack (fastapi 0.68.1 / starlette 0.14.2) never passes
    the detail to Exception.init, so str() of an HTTPException is the empty
    string; PyExc.str records that, and records the message for every other
    exception.
  - The inference pipelines are opaque collaborators, modelled as function
    parameters returning Except PyExc; each handler also returns the list of
    calls it made to its pipeline, so that claims about the pipeline being
    invoked (or not, or with which arguments) are stated on that list.
  - Python truthiness of a str (the `not question` checks) is equality with "".
  - Python `<` on Optional[int] raises TypeError when an operand is None; pyLt
    records that. Indexing result[0] on an empty list raises IndexError.
  - The float confidence score is only passed through unchanged; no claim
    computes with it, so it is carried as an uninterpreted scalar (PyFloat).
-/

deriving instance DecidableEq for Except

inductive PyExc where
  | httpException (status_code : Nat) (detail : String)
  | other (msg : String)
deriving DecidableEq, Repr

/-- Python str(e): starlette 0.14.2 HTTPException never passes its detail to
the Exception constructor, so its str form is empty; any other exception
shows its message. -/
def PyExc.str : PyExc → String
  | .httpException _ _ => ""
  | .other m => m

/-- Uninterpreted carrier for the floating-point confidence score: the
handlers never inspect or compute with it, they only pass it through, so
its internal representation is irrelevant and a tagged wrapper suffices. -/
structure PyFloat where
  tag : Int
deriving DecidableEq, Repr

/-- Request body of POST /answer (class QARequest in src/1.py). -/
structure QARequest where
  question : String
  context : String
deriving DecidableEq, Repr

/-- Result dict produced by the question-answering pipeline in src/1.py:
an answer span and a confidence score. -/
structure QAResult where
  answer : String
  score : PyFloat
deriving DecidableEq, Repr

/-- Success response dict built by answer_question in src/1.py. -/
structure QAResponse where
  status : String
  question : String
  answer : String
  confidence : PyFloat
deriving DecidableEq, Repr

/-- Body of the try block of answer_question (src/1.py lines 34-51):
validation, pipeline call, response construction.  The second component is
the list of (question, context) arguments passed to qa_pipeline. -/
def answer_try_body (qa_pipeline : String → String → Except PyExc QAResult)
    (question context : String) :
    Except PyExc QAResponse × List (String × String) :=
  if question = "" ∨ context = "" then
    (Except.error (PyExc.httpException 400 "Question and context are required"), [])
  else
    match qa_pipeline question context with
    | Except.error e => (Except.error e, [(question, context)])
    | Except.ok result =>
        (Except.ok ⟨"success", question, result.answer, result.score⟩,
         [(question, context)])

/-- The /answer handler (src/1.py lines 33-55): the try body wrapped in
`except Exception as e: raise HTTPException(status_code=500, detail=str(e))`. -/
def answer_question (qa_pipeline : String → String → Except PyExc QAResult)
    (request : QARequest) :
    Except PyExc QAResponse × List (String × String) :=
  match answer_try_body qa_pipeline request.question request.context with
  | (Except.ok resp, calls) => (Except.ok resp, calls)
  | (Except.error e, calls) =>
      (Except.error (PyExc.httpException 500 (PyExc.str e)), calls)

/-- Request body of POST /summarize (class SummaryRequest in src/2.py):
both length fields are Optional[int] with defaults, so an explicit null is
accepted by validation and arrives as none. -/
structure SummaryRequest where
  text : String
  max_length : Option Int := some 150
  min_length : Option Int := some 50
deriving DecidableEq, Repr

/-- One invocation of the summarization pipeline in src/2.py, with the exact
keyword arguments the handler passes. -/
structure SummarizerCall where
  text : String
  max_length : Option Int
  min_length : Option Int
  do_sample : Bool
deriving DecidableEq, Repr

/-- One element of the list returned by the summarization pipeline. -/
structure SummaryOutput where
  summary_text : String
deriving DecidableEq, Repr

/-- Success response dict built by summarize_text in src/2.py. -/
structure SummaryResponse where
  status : String
  original_text : String
  summary : String
deriving DecidableEq, Repr

/-- Python `a < b` on Optional[int] values: comparing None with an int (or
None with None) raises TypeError. -/
def pyLt : Option Int → Option Int → Except PyExc Bool
  | some a, some b => Except.ok (decide (a < b))
  | none, _ =>
      Except.error (PyExc.other
        "TypeError: < not supported between instances of NoneType and int")
  | some _, none =>
      Except.error (PyExc.other
        "TypeError: < not supported between instances of int and NoneType")

/-- Python `xs[0]`: raises IndexError on an empty list. -/
def pyIndexZero : List SummaryOutput → Except PyExc SummaryOutput
  | [] => Except.error (PyExc.other "IndexError: list index out of range")
  | x :: _ => Except.ok x

/-- Body of the try block of summarize_text (src/2.py lines 35-59):
emptiness check, `max_length < min_length` check, pipeline call with
do_sample=False, extraction of result[0]["summary_text"].  The second
component is the list of calls made to the summarizer. -/
def summarize_try_body
    (summarizer : SummarizerCall → Except PyExc (List SummaryOutput))
    (text : String) (max_length min_length : Option Int) :
    Except PyExc SummaryResponse × List SummarizerCall :=
  if text = "" then
    (Except.error (PyExc.httpException 400 "Text is required"), [])
  else
    match pyLt max_length min_length with
    | Except.error e => (Except.error e, [])
    | Except.ok true =>
        (Except.error
          (PyExc.httpException 400 "max_length must be greater than min_length"), [])
    | Except.ok false =>
        match summarizer ⟨text, max_length, min_length, false⟩ with
        | Except.error e => (Except.error e, [⟨text, max_length, min_length, false⟩])
        | Except.ok outs =>
            match pyIndexZero outs with
            | Except.error e =>
                (Except.error e, [⟨text, max_length, min_length, false⟩])
            | Except.ok out =>
                (Except.ok ⟨"success", text, out.summary_text⟩,
                 [⟨text, max_length, min_length, false⟩])

/-- The /summarize handler (src/2.py lines 34-63): the try body wrapped in
`except Exception as e: raise HTTPException(status_code=500, detail=str(e))`. -/
def summarize_text
    (summarizer : SummarizerCall → Except PyExc (List SummaryOutput))
    (request : SummaryRequest) :
    Except PyExc SummaryResponse × List SummarizerCall :=
  match summarize_try_body summarizer request.text request.max_length
      request.min_length with
  | (Except.ok resp, calls) => (Except.ok resp, calls)
  | (Except.error e, calls) =>
      (Except.error (PyExc.httpException 500 (PyExc.str e)), calls)

/-- The /health handler, identical in src/1.py lines 58-60 and src/2.py lines
66-68: a constant dict, reading no model state. -/
def health_check : List (String × String) := [("status", "healthy")]

/-- A concrete succeeding question-answering pipeline, used to evaluate the
handlers at concrete inputs. -/
def qaStub : String → String → Except PyExc QAResult :=
  fun _ _ => Except.ok ⟨"metformin or insulin", ⟨9⟩⟩

/-- A concrete failing question-answering pipeline. -/
def qaFailStub : String → String → Except PyExc QAResult :=
  fun _ _ => Except.error (PyExc.other "CUDA out of memory")

/-- A concrete succeeding summarization pipeline. -/
def summStub : SummarizerCall → Except PyExc (List SummaryOutput) :=
  fun _ => Except.ok [⟨"short summary"⟩]

/-- A concrete failing summarization pipeline. -/
def summFailStub : SummarizerCall → Except PyExc (List SummaryOutput) :=
  fun _ => Except.error (PyExc.other "model failure")

/-- On nonempty inputs the QA try body always calls the pipeline exactly once
with the request fields. -/
lemma answer_try_body_calls (qa : String → String → Except PyExc QAResult)
    (q c : String) (hq : q ≠ "") (hc : c ≠ "") :
    (answer_try_body qa q c).2 = [(q, c)] := by
  unfold answer_try_body
  rw [if_neg (not_or.mpr ⟨hq, hc⟩)]
  cases qa q c <;> rfl

/-- The except wrapper of /answer does not change the list of pipeline calls. -/
lemma answer_question_calls (qa : String → String → Except PyExc QAResult)
    (req : QARequest) :
    (answer_question qa req).2 = (answer_try_body qa req.question req.context).2 := by
  unfold answer_question
  rcases answer_try_body qa req.question req.context with ⟨r, calls⟩
  cases r <;> rfl

/-- On nonempty text and ordered integer lengths the summarize try body always
calls the summarizer exactly once, with do_sample false. -/
lemma summarize_try_body_calls
    (summ : SummarizerCall → Except PyExc (List SummaryOutput))
    (t : String) (mx mn : Int) (ht : t ≠ "") (hord : ¬ mx < mn) :
    (summarize_try_body summ t (some mx) (some mn)).2 =
      [⟨t, some mx, some mn, false⟩] := by
  unfold summarize_try_body
  rw [if_neg ht]
  simp only [pyLt, decide_eq_false hord]
  cases hs : summ ⟨t, some mx, some mn, false⟩ with
  | error e => rfl
  | ok outs => cases outs <;> rfl

/-- The except wrapper of /summarize does not change the list of calls. -/
lemma summarize_text_calls
    (summ : SummarizerCall → Except PyExc (List SummaryOutput))
    (req : SummaryRequest) :
    (summarize_text summ req).2 =
      (summarize_try_body summ req.text req.max_length req.min_length).2 := by
  unfold summarize_text
  rcases summarize_try_body summ req.text req.max_length req.min_length with ⟨r, calls⟩
  cases r <;> rfl

/-- Claim C1 (code bug): with an empty question (or empty context) the
pipeline is indeed never invoked (empty call list), and the try body does
raise HTTPException 400 "Question and context are required" — but that
exception is caught by the broad except clause of the same handler and
re-raised as HTTPException 500 with detail str(e) = "", so the client
receives a 500 server error, not the 400 client error the claim states. -/
theorem answer_validation_error_swallowed_to_500 :
    answer_question qaStub ⟨"", "ctx"⟩ =
      (Except.error (PyExc.httpException 500 ""), []) ∧
    (answer_try_body qaStub "" "ctx").1 =
      Except.error (PyExc.httpException 400 "Question and context are required") ∧
    answer_question qaStub ⟨"q", ""⟩ =
      (Except.error (PyExc.httpException 500 ""), []) := by decide

/-- Claim C2: every error escaping either handler is an HTTPException with
status 500 whose detail is the str form of the exception caught inside the
try block; in particular no error path of either handler yields a 400. -/
theorem handlers_map_all_errors_to_500
    (qa : String → String → Except PyExc QAResult) (req : QARequest)
    (summ : SummarizerCall → Except PyExc (List SummaryOutput))
    (sreq : SummaryRequest) :
    (∀ e, (answer_question qa req).1 = Except.error e →
      ∃ e0, (answer_try_body qa req.question req.context).1 = Except.error e0 ∧
        e = PyExc.httpException 500 (PyExc.str e0)) ∧
    (∀ e, (summarize_text summ sreq).1 = Except.error e →
      ∃ e0, (summarize_try_body summ sreq.text sreq.max_length
          sreq.min_length).1 = Except.error e0 ∧
        e = PyExc.httpException 500 (PyExc.str e0)) := by
  constructor
  · intro e he
    unfold answer_question at he
    rcases h : answer_try_body qa req.question req.context with ⟨r, calls⟩
    rw [h] at he
    cases r with
    | ok resp => exact absurd he (by simp)
    | error e0 =>
        refine ⟨e0, rfl, ?_⟩
        simpa using he.symm
  · intro e he
    unfold summarize_text at he
    rcases h : summarize_try_body summ sreq.text sreq.max_length sreq.min_length
      with ⟨r, calls⟩
    rw [h] at he
    cases r with
    | ok resp => exact absurd he (by simp)
    | error e0 =>
        refine ⟨e0, rfl, ?_⟩
        simpa using he.symm

/-- Claim C2, instantiated: at empty question and empty text both handlers
produce exactly the 500 with the str of the swallowed 400. -/
theorem handlers_map_all_errors_to_500_witness :
    (∃ e0, (answer_try_body qaStub "" "ctx").1 = Except.error e0 ∧
      PyExc.httpException 500 "" = PyExc.httpException 500 (PyExc.str e0)) ∧
    (∃ e0, (summarize_try_body summStub "" (some 150) (some 50)).1 =
        Except.error e0 ∧
      PyExc.httpException 500 "" = PyExc.httpException 500 (PyExc.str e0)) :=
  ⟨(handlers_map_all_errors_to_500 qaStub ⟨"", "ctx"⟩ summStub
      ⟨"", some 150, some 50⟩).1 (PyExc.httpException 500 "") (by decide),
   (handlers_map_all_errors_to_500 qaStub ⟨"", "ctx"⟩ summStub
      ⟨"", some 150, some 50⟩).2 (PyExc.httpException 500 "") (by decide)⟩

/-- Claim C3 (code bug): the code checks `max_length < min_length`, so a
request with max_length = min_length = 50 passes validation and the
summarizer IS invoked (contradicting the claimed rejection of the equal
case, and contradicting the code's own error message "max_length must be
greater than min_length"); moreover for empty text and for
max_length < min_length the 400 raised inside the try block is swallowed
by the broad except clause and the client receives a 500, not a 400. -/
theorem summarize_validation_slips :
    summarize_text summStub ⟨"note", some 50, some 50⟩ =
      (Except.ok ⟨"success", "note", "short summary"⟩,
       [⟨"note", some 50, some 50, false⟩]) ∧
    summarize_text summStub ⟨"", some 150, some 50⟩ =
      (Except.error (PyExc.httpException 500 ""), []) ∧
    (summarize_try_body summStub "" (some 150) (some 50)).1 =
      Except.error (PyExc.httpException 400 "Text is required") ∧
    summarize_text summStub ⟨"note", some 10, some 50⟩ =
      (Except.error (PyExc.httpException 500 ""), []) ∧
    (summarize_try_body summStub "note" (some 10) (some 50)).1 =
      Except.error
        (PyExc.httpException 400 "max_length must be greater than min_length") := by
  decide

/-- Claim C4: when the inference call raises, both handlers return HTTP 500
whose detail is exactly the raw exception text, unsanitized. -/
theorem inference_error_surfaces_raw_message
    (qa : String → String → Except PyExc QAResult) (req : QARequest) (msg : String)
    (hq : req.question ≠ "") (hc : req.context ≠ "")
    (hfail : qa req.question req.context = Except.error (PyExc.other msg))
    (summ : SummarizerCall → Except PyExc (List SummaryOutput))
    (sreq : SummaryRequest) (mx mn : Int) (smsg : String)
    (ht : sreq.text ≠ "")
    (hmx : sreq.max_length = some mx) (hmn : sreq.min_length = some mn)
    (hord : ¬ mx < mn)
    (hsfail : summ ⟨sreq.text, sreq.max_length, sreq.min_length, false⟩ =
      Except.error (PyExc.other smsg)) :
    (answer_question qa req).1 =
      Except.error (PyExc.httpException 500 msg) ∧
    (summarize_text summ sreq).1 =
      Except.error (PyExc.httpException 500 smsg) := by
  constructor
  · unfold answer_question answer_try_body
    rw [if_neg (not_or.mpr ⟨hq, hc⟩), hfail]
    rfl
  · rw [hmx, hmn] at hsfail
    unfold summarize_text summarize_try_body
    rw [hmx, hmn, if_neg ht]
    simp only [pyLt, decide_eq_false hord, hsfail]
    rfl

/-- Claim C4, instantiated with failing pipelines: the CUDA message and the
model-failure message pass through verbatim into the 500 detail. -/
theorem inference_error_surfaces_raw_message_witness :
    (answer_question qaFailStub ⟨"q", "c"⟩).1 =
      Except.error (PyExc.httpException 500 "CUDA out of memory") ∧
    (summarize_text summFailStub ⟨"note", some 150, some 50⟩).1 =
      Except.error (PyExc.httpException 500 "model failure") :=
  inference_error_surfaces_raw_message qaFailStub ⟨"q", "c"⟩ "CUDA out of memory"
    (by decide) (by decide) rfl
    summFailStub ⟨"note", some 150, some 50⟩ 150 50 "model failure"
    (by decide) rfl rfl (by decide) rfl

/-- Claim C5: on valid input with successful inference, both handlers answer
with status "success" and echo the input verbatim: /answer echoes the
question, /summarize echoes the text as original_text. -/
theorem success_echoes_inputs
    (qa : String → String → Except PyExc QAResult) (req : QARequest)
    (r : QAResult)
    (hq : req.question ≠ "") (hc : req.context ≠ "")
    (hok : qa req.question req.context = Except.ok r)
    (summ : SummarizerCall → Except PyExc (List SummaryOutput))
    (sreq : SummaryRequest) (mx mn : Int)
    (out : SummaryOutput) (rest : List SummaryOutput)
    (ht : sreq.text ≠ "")
    (hmx : sreq.max_length = some mx) (hmn : sreq.min_length = some mn)
    (hord : ¬ mx < mn)
    (hsok : summ ⟨sreq.text, sreq.max_length, sreq.min_length, false⟩ =
      Except.ok (out :: rest)) :
    (answer_question qa req).1 =
      Except.ok ⟨"success", req.question, r.answer, r.score⟩ ∧
    (summarize_text summ sreq).1 =
      Except.ok ⟨"success", sreq.text, out.summary_text⟩ := by
  constructor
  · unfold answer_question answer_try_body
    rw [if_neg (not_or.mpr ⟨hq, hc⟩), hok]
  · rw [hmx, hmn] at hsok
    unfold summarize_text summarize_try_body
    rw [hmx, hmn, if_neg ht]
    simp only [pyLt, decide_eq_false hord, hsok, pyIndexZero]

/-- Claim C5, instantiated: the concrete question "q" and text "note" come
back verbatim with status "success". -/
theorem success_echoes_inputs_witness :
    (answer_question qaStub ⟨"q", "c"⟩).1 =
      Except.ok ⟨"success", "q", "metformin or insulin", ⟨9⟩⟩ ∧
    (summarize_text summStub ⟨"note", some 150, some 50⟩).1 =
      Except.ok ⟨"success", "note", "short summary"⟩ :=
  success_echoes_inputs qaStub ⟨"q", "c"⟩ ⟨"metformin or insulin", ⟨9⟩⟩
    (by decide) (by decide) rfl
    summStub ⟨"note", some 150, some 50⟩ 150 50 ⟨"short summary"⟩ []
    (by decide) rfl rfl (by decide) rfl

/-- Claim C6: on a valid request the summarizer is invoked exactly once, with
exactly the request text, the request max_length and min_length, and
do_sample = false, and the handler returns the summary_text of the first
pipeline result in the summary field. -/
theorem summarizer_called_once_with_exact_args
    (summ : SummarizerCall → Except PyExc (List SummaryOutput))
    (sreq : SummaryRequest) (mx mn : Int)
    (out : SummaryOutput) (rest : List SummaryOutput)
    (ht : sreq.text ≠ "")
    (hmx : sreq.max_length = some mx) (hmn : sreq.min_length = some mn)
    (hord : ¬ mx < mn)
    (hsok : summ ⟨sreq.text, sreq.max_length, sreq.min_length, false⟩ =
      Except.ok (out :: rest)) :
    summarize_text summ sreq =
      (Except.ok ⟨"success", sreq.text, out.summary_text⟩,
       [⟨sreq.text, sreq.max_length, sreq.min_length, false⟩]) := by
  rw [hmx, hmn] at hsok
  unfold summarize_text summarize_try_body
  rw [hmx, hmn, if_neg ht]
  simp only [pyLt, decide_eq_false hord, hsok, pyIndexZero]

/-- Claim C6, instantiated: request ("note", 150, 50) yields exactly one call
record with do_sample false and the stub summary as result. -/
theorem summarizer_called_once_with_exact_args_witness :
    summarize_text summStub ⟨"note", some 150, some 50⟩ =
      (Except.ok ⟨"success", "note", "short summary"⟩,
       [⟨"note", some 150, some 50, false⟩]) :=
  summarizer_called_once_with_exact_args summStub ⟨"note", some 150, some 50⟩
    150 50 ⟨"short summary"⟩ [] (by decide) rfl rfl (by decide) rfl

/-- Claim C7: a request supplying only text gets max_length = 150 and
min_length = 50 by default, these satisfy the ordering check (150 < 50 is
false, so no 400 is raised), and the handler goes on to call the summarizer
once with those defaults. -/
theorem summary_request_defaults_pass_validation
    (t : String) (ht : t ≠ "")
    (summ : SummarizerCall → Except PyExc (List SummaryOutput)) :
    ({ text := t } : SummaryRequest).max_length = some 150 ∧
    ({ text := t } : SummaryRequest).min_length = some 50 ∧
    pyLt ({ text := t } : SummaryRequest).max_length
        ({ text := t } : SummaryRequest).min_length = Except.ok false ∧
    (summarize_text summ { text := t }).2 = [⟨t, some 150, some 50, false⟩] := by
  refine ⟨rfl, rfl, rfl, ?_⟩
  rw [summarize_text_calls]
  exact summarize_try_body_calls summ t 150 50 ht (by decide)

/-- Claim C7, instantiated at text = "note". -/
theorem summary_request_defaults_pass_validation_witness :
    ({ text := "note" } : SummaryRequest).max_length = some 150 ∧
    ({ text := "note" } : SummaryRequest).min_length = some 50 ∧
    pyLt ({ text := "note" } : SummaryRequest).max_length
        ({ text := "note" } : SummaryRequest).min_length = Except.ok false ∧
    (summarize_text summStub { text := "note" }).2 =
      [⟨"note", some 150, some 50, false⟩] :=
  summary_request_defaults_pass_validation "note" (by decide) summStub

/-- Claim C8: the /health handler of both services returns exactly the
constant dict with status "healthy"; it reads no model state at all. -/
theorem health_check_returns_healthy :
    health_check = [("status", "healthy")] := rfl

/-- Claim C9: a schema-valid request carrying an explicit null max_length (or
null min_length) reaches the comparison with a None operand; the TypeError is
caught by the broad except clause and the client receives a 500 server error
(with the TypeError text as detail), never a 400 validation error, and the
summarizer is not called. -/
theorem null_length_comparison_yields_500
    (summ : SummarizerCall → Except PyExc (List SummaryOutput))
    (t : String) (ht : t ≠ "") (ml : Option Int) (mx : Int) :
    summarize_text summ ⟨t, none, ml⟩ =
      (Except.error (PyExc.httpException 500
        "TypeError: < not supported between instances of NoneType and int"), []) ∧
    summarize_text summ ⟨t, some mx, none⟩ =
      (Except.error (PyExc.httpException 500
        "TypeError: < not supported between instances of int and NoneType"), []) := by
  constructor
  · unfold summarize_text summarize_try_body
    simp only [if_neg ht, pyLt]
    rfl
  · unfold summarize_text summarize_try_body
    simp only [if_neg ht, pyLt]
    rfl

/-- Claim C9, instantiated at text "note" with max_length null, and with
min_length null. -/
theorem null_length_comparison_yields_500_witness :
    summarize_text summStub ⟨"note", none, some 50⟩ =
      (Except.error (PyExc.httpException 500
        "TypeError: < not supported between instances of NoneType and int"), []) ∧
    summarize_text summStub ⟨"note", some 150, none⟩ =
      (Except.error (PyExc.httpException 500
        "TypeError: < not supported between instances of int and NoneType"), []) :=
  null_length_comparison_yields_500 summStub "note" (by decide) (some 50) 150

/-- Claim C10: the emptiness checks compare against the empty string only, so
any nonempty input — in particular one consisting solely of whitespace —
passes validation and the pipeline is invoked with exactly that input. -/
theorem nonempty_strings_pass_emptiness_checks
    (qa : String → String → Except PyExc QAResult) (q c : String)
    (hq : q ≠ "") (hc : c ≠ "")
    (summ : SummarizerCall → Except PyExc (List SummaryOutput))
    (t : String) (ht : t ≠ "") (mx mn : Int) (hord : ¬ mx < mn) :
    (answer_question qa ⟨q, c⟩).2 = [(q, c)] ∧
    (summarize_text summ ⟨t, some mx, some mn⟩).2 =
      [⟨t, some mx, some mn, false⟩] := by
  constructor
  · rw [answer_question_calls]
    exact answer_try_body_calls qa q c hq hc
  · rw [summarize_text_calls]
    exact summarize_try_body_calls summ t mx mn ht hord

/-- Claim C10, instantiated at the single-space question, context and text:
validation passes and each pipeline is invoked with the whitespace input. -/
theorem nonempty_strings_pass_emptiness_checks_witness :
    (answer_question qaStub ⟨" ", " "⟩).2 = [(" ", " ")] ∧
    (summarize_text summStub ⟨" ", some 150, some 50⟩).2 =
      [⟨" ", some 150, some 50, false⟩] :=
  nonempty_strings_pass_emptiness_checks qaStub " " " " (by decide) (by decide)
    summStub " " (by decide) 150 50 (by decide)
